import Mathlib

/-!
Shallow embedding of the `zkid-acl` and `zkid-vc` zklib modules
(`src/zkid-acl/zklib/src/lib.rs`, `src/zkid-vc/zklib/src/lib.rs`).

Byte strings are modelled as `List Nat` (each element a byte value).
C-string pointer arguments are modelled as `Option` values (`none` = null
pointer); caller-supplied output buffers are modelled by their capacity
(a `Nat`) together with an `Option Unit` for the buffer pointer itself,
and each FFI function returns the status code paired with the content it
wrote into each output buffer (`none` = nothing written).

External collaborators (the SHA-256 digest, the arkworks Groth16
proving system, the Ed25519 signature library, and `ark_std`'s seeded
`StdRng`) are out of scope per the specification and are modelled as
explicit capability parameters.
-/

namespace Zkid

/-- Byte strings: lists of byte values. -/
abbrev Bytes := List Nat

/-- The BN254 scalar-field modulus (the modulus of arkworks' `Fr` for `Bn254`). -/
def frMod : Nat := 21888242871839275222246405745257275088548364400416034343698204186575808495617

/-- The proving system's scalar field `Fr`. -/
abbrev Fr := ZMod frMod

/-- `Fr::from` on an unsigned integer value. -/
def frFrom (n : Nat) : Fr := (n : Fr)

/-- One lowercase hex digit character (byte value) for a value below 16;
models the per-digit behaviour of `hex::encode`. -/
def hexDigitChar (n : Nat) : Nat :=
  if n < 10 then 48 + n else 87 + n

/-- The value of one hex digit character, accepting both cases;
models the per-digit behaviour of `hex::decode`. -/
def hexDigitVal (c : Nat) : Option Nat :=
  if 48 ≤ c ∧ c ≤ 57 then some (c - 48)
  else if 97 ≤ c ∧ c ≤ 102 then some (c - 87)
  else if 65 ≤ c ∧ c ≤ 70 then some (c - 55)
  else none

/-- `bytes_to_hex` (both modules): lowercase hex encoding, two characters
per byte. -/
def bytes_to_hex : Bytes → Bytes
  | [] => []
  | b :: rest => hexDigitChar (b / 16) :: hexDigitChar (b % 16) :: bytes_to_hex rest

/-- `hex_to_bytes` (both modules): `hex::decode`; fails on an odd length or
a non-hex character. -/
def hex_to_bytes : Bytes → Option Bytes
  | [] => some []
  | [_] => none
  | c1 :: c2 :: rest => do
      let h ← hexDigitVal c1
      let l ← hexDigitVal c2
      let tail ← hex_to_bytes rest
      pure ((16 * h + l) :: tail)

/-- `u64::from_le_bytes` on the first eight bytes of a digest (bytes past
the end read as zero; SHA-256 digests always have 32 bytes). -/
def u64FromLeBytes (hash : Bytes) : Nat :=
  hash.getD 0 0 + 256 * (hash.getD 1 0 + 256 * (hash.getD 2 0 + 256 * (hash.getD 3 0 +
    256 * (hash.getD 4 0 + 256 * (hash.getD 5 0 + 256 * (hash.getD 6 0 +
    256 * hash.getD 7 0))))))

/-- `u64::to_le_bytes`: the eight little-endian bytes of a 64-bit value. -/
def u64ToLeBytes (n : Nat) : Bytes :=
  [n % 256, n / 256 % 256, n / 256 ^ 2 % 256, n / 256 ^ 3 % 256,
   n / 256 ^ 4 % 256, n / 256 ^ 5 % 256, n / 256 ^ 6 % 256, n / 256 ^ 7 % 256]

/-- The Groth16 proving-system capability (arkworks, out of scope per the
specification), over a given circuit type.  `setup` takes the circuit and
the `u64` seed of the deterministic `StdRng`; `prove` takes the proving
key, the assigned circuit, and the `u64` seed of the `StdRng` used for
proving randomness; `verify` is `verify_with_processed_vk` (`none` models
`Err(_)`); `serializeCompressed` models `serialize_compressed` into a byte
vector; `deserializeCompressed` models `Proof::deserialize_compressed`. -/
structure Groth16Cap (Circuit : Type) where
  PK : Type
  VK : Type
  PVK : Type
  Pf : Type
  setup : Circuit → Nat → Option (PK × VK)
  prepare : VK → PVK
  prove : PK → Circuit → Nat → Option Pf
  verify : PVK → List Fr → Pf → Option Bool
  serializeCompressed : Pf → Option Bytes
  deserializeCompressed : Bytes → Option Pf

/-- The Ed25519 signature capability (`ed25519_dalek`, out of scope per the
specification).  Keys are carried as their byte encodings: `sign sk msg`
is the 64-byte signature by the signing key with bytes `sk`; `pubkey sk`
is the 32-byte encoding of the corresponding verifying key; `pkValid pk`
tells whether `VerifyingKey::from_bytes pk` succeeds; `verify pk msg sig`
tells whether `pk.verify(msg, sig)` returns `Ok`. -/
structure Ed25519Cap where
  sign : Bytes → Bytes → Bytes
  pubkey : Bytes → Bytes
  pkValid : Bytes → Bool
  verify : Bytes → Bytes → Bytes → Bool

/-- The key store guarded by the `KEYS` mutex: `Except.error ()` models a
poisoned lock (`KEYS.lock()` returning `Err`), `Except.ok none` an empty
store, `Except.ok (some (pk, pvk))` an installed key pair. -/
abbrev KeyStore (PK PVK : Type) := Except Unit (Option (PK × PVK))

namespace ACL

/-- `hash_to_field` (zkid-acl): SHA-256 the input, take the first 8 bytes
of the digest as a little-endian u64, reduce modulo `10^12`, lift to `Fr`.
The SHA-256 primitive is the explicit parameter `sha256`. -/
def hash_to_field (sha256 : Zkid.Bytes → Zkid.Bytes) (data : Zkid.Bytes) : Fr :=
  let hash := sha256 data
  let val := u64FromLeBytes hash
  frFrom (val % 1000000000000)

/-- The `UserIDCircuit` struct: private witness `user_id_hash`, public
inputs `public_id` and `nonce`, each `Option Fr` (`none` during setup). -/
structure UserIDCircuit where
  user_id_hash : Option Fr
  public_id : Option Fr
  nonce : Option Fr

/-- The R1CS constraint emitted by `UserIDCircuit::generate_constraints`
on a fully assigned circuit: `user_id_hash * 1 = public_id` (the nonce is
allocated as a public input but constrained by nothing). -/
def UserIDCircuit.constraintHolds (c : UserIDCircuit) : Prop :=
  ∃ w p n, c.user_id_hash = some w ∧ c.public_id = some p ∧ c.nonce = some n ∧
    w * 1 = p

/-- The public-input vector of a fully assigned `UserIDCircuit`, in the
order the input variables are allocated: `public_id` first, `nonce`
second. -/
def UserIDCircuit.publicInputs (c : UserIDCircuit) : Option (List Fr) :=
  match c.public_id, c.nonce with
  | some p, some n => some [p, n]
  | _, _ => none

/-- `ZK_Init` (zkid-acl): run Groth16 setup on the all-`none` circuit with
a `StdRng` seeded from `0u64`, prepare the verifying key, and install the
pair.  `lockFails` models `KEYS.lock()` returning `Err`.  Returns the
status code and the installed key pair (`none` on failure). -/
def ZK_Init (G : Groth16Cap UserIDCircuit) (lockFails : Bool) :
    Int × Option (G.PK × G.PVK) :=
  match G.setup ⟨none, none, none⟩ 0 with
  | none => (-1, none)
  | some (pk, vk) =>
      if lockFails then (-1, none)
      else (0, some (pk, G.prepare vk))

/-- `ZK_ComputePublicID` (zkid-acl): SHA-256 the user id, hex-encode the
digest, and write it if the buffer holds the hex string plus the null
terminator.  Returns the status code and the buffer content written. -/
def ZK_ComputePublicID (sha256 : Zkid.Bytes → Zkid.Bytes)
    (user_id : Option Zkid.Bytes) (public_id : Option Unit)
    (public_id_size : Nat) : Int × Option Zkid.Bytes :=
  match user_id, public_id with
  | some user_id_bytes, some _ =>
      let hash := sha256 user_id_bytes
      let hex_str := bytes_to_hex hash
      if public_id_size < hex_str.length + 1 then (-1, none)
      else (0, some hex_str)
  | _, _ => (-1, none)

/-- `ZK_GenerateProof` (zkid-acl): null checks, key lookup, SHA-256 the
user id and map it to the field, hex-decode and map the public id, refuse
on mismatch, then prove with a `StdRng` seeded from the nonce, serialize,
hex-encode, and write if the buffer is large enough. -/
def ZK_GenerateProof (G : Groth16Cap UserIDCircuit)
    (sha256 : Zkid.Bytes → Zkid.Bytes) (keys : KeyStore G.PK G.PVK)
    (user_id : Option Zkid.Bytes) (public_id : Option Zkid.Bytes)
    (nonce : Nat) (proof_out : Option Unit) (proof_out_size : Nat) :
    Int × Option Zkid.Bytes :=
  match user_id, public_id, proof_out with
  | some user_id_bytes, some public_id_str, some _ =>
      match keys with
      | .error _ => (-1, none)
      | .ok none => (-1, none)
      | .ok (some (pk, _)) =>
          let user_id_hash_bytes := sha256 user_id_bytes
          let user_id_hash_field := hash_to_field sha256 user_id_hash_bytes
          match hex_to_bytes public_id_str with
          | none => (-1, none)
          | some public_id_bytes =>
              let public_id_field := hash_to_field sha256 public_id_bytes
              if user_id_hash_field ≠ public_id_field then (-1, none)
              else
                let nonce_field := frFrom nonce
                let circuit : UserIDCircuit :=
                  ⟨some user_id_hash_field, some public_id_field, some nonce_field⟩
                match G.prove pk circuit nonce with
                | none => (-1, none)
                | some proof =>
                    match G.serializeCompressed proof with
                    | none => (-1, none)
                    | some proof_bytes =>
                        let proof_hex := bytes_to_hex proof_bytes
                        if proof_out_size < proof_hex.length + 1 then (-1, none)
                        else (0, some proof_hex)
  | _, _, _ => (-1, none)

/-- `ZK_VerifyProof` (zkid-acl): null checks, key lookup, hex-decode and
deserialize the proof, hex-decode and map the public id, and call
`verify_with_processed_vk` with public inputs `[public_id_field, nonce]`;
returns 1 exactly on `Ok(true)`, 0 otherwise. -/
def ZK_VerifyProof (G : Groth16Cap UserIDCircuit)
    (sha256 : Zkid.Bytes → Zkid.Bytes) (keys : KeyStore G.PK G.PVK)
    (proof_hex : Option Zkid.Bytes) (public_id : Option Zkid.Bytes)
    (nonce : Nat) : Int :=
  match proof_hex, public_id with
  | some proof_hex_str, some public_id_str =>
      match keys with
      | .error _ => 0
      | .ok none => 0
      | .ok (some (_, pvk)) =>
          match hex_to_bytes proof_hex_str with
          | none => 0
          | some proof_bytes =>
              match G.deserializeCompressed proof_bytes with
              | none => 0
              | some proof =>
                  match hex_to_bytes public_id_str with
                  | none => 0
                  | some public_id_bytes =>
                      let public_id_field := hash_to_field sha256 public_id_bytes
                      let nonce_field := frFrom nonce
                      let public_inputs := [public_id_field, nonce_field]
                      match G.verify pvk public_inputs proof with
                      | some true => 1
                      | some false => 0
                      | none => 0
  | _, _ => 0

end ACL

namespace VC

/-- `hash_bytes_to_field` (zkid-vc): SHA-256 the input, take the first 8
bytes of the digest as a little-endian u64, reduce modulo `10^12`, lift to
`Fr`. -/
def hash_bytes_to_field (sha256 : Zkid.Bytes → Zkid.Bytes)
    (data : Zkid.Bytes) : Fr :=
  let hash := sha256 data
  let val := u64FromLeBytes hash
  frFrom (val % 1000000000000)

/-- The byte sequence fed to the SHA-256 hasher by `ZK_SignVC`,
`ZK_VerifyVCSignature`, `ZK_ComputeVCHash` and step 5 of
`ZK_GenerateVCProof`: holder id bytes, issuer bytes, issue date as eight
little-endian bytes, expiry date as eight little-endian bytes. -/
def signMessageBytes (holder_id issuer : Zkid.Bytes)
    (issue_date expiry_date : Nat) : Zkid.Bytes :=
  holder_id ++ issuer ++ u64ToLeBytes issue_date ++ u64ToLeBytes expiry_date

/-- The `VerifiableCredential` struct.  Strings are carried as their byte
sequences. -/
structure VerifiableCredential where
  holder_id : Zkid.Bytes
  issuer : Zkid.Bytes
  issue_date : Nat
  expiry_date : Nat
  claims : List (Zkid.Bytes × Zkid.Bytes)
  signature : Zkid.Bytes

/-- The claim pairs flattened in list order, key bytes then value bytes,
as fed to the hasher by `VerifiableCredential::message_hash`. -/
def claimsBytes : List (Zkid.Bytes × Zkid.Bytes) → Zkid.Bytes
  | [] => []
  | (key, value) :: rest => key ++ value ++ claimsBytes rest

/-- The byte sequence fed to the SHA-256 hasher by
`VerifiableCredential::message_hash`: holder id, issuer, issue date as
eight little-endian bytes, expiry date as eight little-endian bytes, then
each claim's key and value bytes in list order. -/
def VerifiableCredential.messageBytes (vc : VerifiableCredential) : Zkid.Bytes :=
  vc.holder_id ++ vc.issuer ++ u64ToLeBytes vc.issue_date ++
    u64ToLeBytes vc.expiry_date ++ claimsBytes vc.claims

/-- `VerifiableCredential::message_hash`: the SHA-256 digest of
`messageBytes`. -/
def VerifiableCredential.message_hash (sha256 : Zkid.Bytes → Zkid.Bytes)
    (vc : VerifiableCredential) : Zkid.Bytes :=
  sha256 vc.messageBytes

/-- `VerifiableCredential::verify_signature`: false unless the stored
signature has exactly 64 bytes (`Signature::from_slice` cannot fail at
that length), then Ed25519-verify `message_hash` under the given
verifying key. -/
def VerifiableCredential.verify_signature (ed : Ed25519Cap)
    (sha256 : Zkid.Bytes → Zkid.Bytes) (vc : VerifiableCredential)
    (issuer_pubkey : Zkid.Bytes) : Bool :=
  if vc.signature.length ≠ 64 then false
  else ed.verify issuer_pubkey (vc.message_hash sha256) vc.signature

/-- The `VCCircuit` struct: private witness `vc_hash`, public inputs
`issuer_pubkey_hash` and `nonce`, each `Option Fr`. -/
structure VCCircuit where
  vc_hash : Option Fr
  issuer_pubkey_hash : Option Fr
  nonce : Option Fr

/-- The R1CS constraints emitted by `VCCircuit::generate_constraints` on a
fully assigned circuit: `vc_hash * 1 = vc_hash` and
`issuer_pubkey_hash * 1 = issuer_pubkey_hash` (each field is merely
equated with itself; the nonce is allocated with no constraint). -/
def VCCircuit.constraintHolds (c : VCCircuit) : Prop :=
  ∃ w p n, c.vc_hash = some w ∧ c.issuer_pubkey_hash = some p ∧
    c.nonce = some n ∧ w * 1 = w ∧ p * 1 = p

/-- The public-input vector of a fully assigned `VCCircuit`, in allocation
order: `issuer_pubkey_hash` first, `nonce` second. -/
def VCCircuit.publicInputs (c : VCCircuit) : Option (List Fr) :=
  match c.issuer_pubkey_hash, c.nonce with
  | some p, some n => some [p, n]
  | _, _ => none

/-- `ZK_Init` (zkid-vc): Groth16 setup on the all-`none` `VCCircuit` with
a `StdRng` seeded from `0u64`; install `(pk, prepared vk)`. -/
def ZK_Init (G : Groth16Cap VCCircuit) (lockFails : Bool) :
    Int × Option (G.PK × G.PVK) :=
  match G.setup ⟨none, none, none⟩ 0 with
  | none => (-1, none)
  | some (pk, vk) =>
      if lockFails then (-1, none)
      else (0, some (pk, G.prepare vk))

/-- The fixed `u64` seed hard-coded in `ZK_GenerateIssuerKeypair`. -/
def issuerKeypairSeed : Nat := 0x1234567890ABCDEF

/-- `ZK_GenerateIssuerKeypair` (zkid-vc): seed `StdRng` with the fixed
constant `0x1234567890ABCDEF`, draw 32 secret bytes (`rngBytes32` models
`StdRng::seed_from_u64` followed by `fill_bytes` on a 32-byte array),
derive the verifying key, hex-encode both keys, and write both outputs
only if both buffers are large enough.  Returns the status code and the
content written into each buffer. -/
def ZK_GenerateIssuerKeypair (ed : Ed25519Cap) (rngBytes32 : Nat → Zkid.Bytes)
    (public_key_out private_key_out : Option Unit)
    (public_key_size private_key_size : Nat) :
    Int × Option Zkid.Bytes × Option Zkid.Bytes :=
  match public_key_out, private_key_out with
  | some _, some _ =>
      let secret_bytes := rngBytes32 issuerKeypairSeed
      let public_key_hex := bytes_to_hex (ed.pubkey secret_bytes)
      let private_key_hex := bytes_to_hex secret_bytes
      if public_key_size < public_key_hex.length + 1 ∨
         private_key_size < private_key_hex.length + 1 then (-1, none, none)
      else (0, some public_key_hex, some private_key_hex)
  | _, _ => (-1, none, none)

/-- `ZK_SignVC` (zkid-vc): null checks, hex-decode the private key and
require exactly 32 bytes, SHA-256 the holder/issuer/dates message, sign
it, hex-encode the 64-byte signature, and write it if the buffer is large
enough. -/
def ZK_SignVC (ed : Ed25519Cap) (sha256 : Zkid.Bytes → Zkid.Bytes)
    (holder_id issuer : Option Zkid.Bytes) (issue_date expiry_date : Nat)
    (issuer_private_key : Option Zkid.Bytes) (signature_out : Option Unit)
    (signature_out_size : Nat) : Int × Option Zkid.Bytes :=
  match holder_id, issuer, issuer_private_key, signature_out with
  | some holder_id_bytes, some issuer_bytes, some issuer_privkey_str, some _ =>
      match hex_to_bytes issuer_privkey_str with
      | none => (-1, none)
      | some privkey_bytes =>
          if privkey_bytes.length ≠ 32 then (-1, none)
          else
            let message := sha256 (signMessageBytes holder_id_bytes issuer_bytes
              issue_date expiry_date)
            let signature := ed.sign privkey_bytes message
            let signature_hex := bytes_to_hex signature
            if signature_out_size < signature_hex.length + 1 then (-1, none)
            else (0, some signature_hex)
  | _, _, _, _ => (-1, none)

/-- `ZK_VerifyVCSignature` (zkid-vc): null checks, hex-decode signature
and public key, require 64 and 32 bytes respectively, parse the verifying
key (reject on failure), SHA-256 the holder/issuer/dates message, and
Ed25519-verify; 1 on success, 0 otherwise. -/
def ZK_VerifyVCSignature (ed : Ed25519Cap) (sha256 : Zkid.Bytes → Zkid.Bytes)
    (holder_id issuer : Option Zkid.Bytes) (issue_date expiry_date : Nat)
    (signature issuer_public_key : Option Zkid.Bytes) : Int :=
  match holder_id, issuer, signature, issuer_public_key with
  | some holder_id_bytes, some issuer_bytes, some signature_str, some issuer_pubkey_str =>
      match hex_to_bytes signature_str with
      | none => 0
      | some signature_bytes =>
          match hex_to_bytes issuer_pubkey_str with
          | none => 0
          | some pubkey_bytes =>
              if signature_bytes.length ≠ 64 ∨ pubkey_bytes.length ≠ 32 then 0
              else if ed.pkValid pubkey_bytes = false then 0
              else
                let message := sha256 (signMessageBytes holder_id_bytes
                  issuer_bytes issue_date expiry_date)
                if ed.verify pubkey_bytes message signature_bytes then 1 else 0
  | _, _, _, _ => 0

/-- `ZK_ComputeVCHash` (zkid-vc): null checks, SHA-256 the
holder/issuer/dates message, hex-encode, and write it if the buffer is
large enough. -/
def ZK_ComputeVCHash (sha256 : Zkid.Bytes → Zkid.Bytes)
    (holder_id issuer : Option Zkid.Bytes) (issue_date expiry_date : Nat)
    (vc_hash_out : Option Unit) (vc_hash_out_size : Nat) :
    Int × Option Zkid.Bytes :=
  match holder_id, issuer, vc_hash_out with
  | some holder_id_bytes, some issuer_bytes, some _ =>
      let hash := sha256 (signMessageBytes holder_id_bytes issuer_bytes
        issue_date expiry_date)
      let hex_str := bytes_to_hex hash
      if vc_hash_out_size < hex_str.length + 1 then (-1, none)
      else (0, some hex_str)
  | _, _, _ => (-1, none)

/-- Steps 3 through 8 of `ZK_GenerateVCProof` (everything after the
signature pre-check and the time-window pre-check): key lookup, input
parsing, VC message hash, field encoding, proving with a `StdRng` seeded
from the nonce, serialization, hex encoding, and the buffer write. -/
def generateVCProofFromStep3 (G : Groth16Cap VCCircuit)
    (sha256 : Zkid.Bytes → Zkid.Bytes) (keys : KeyStore G.PK G.PVK)
    (holder_id_bytes issuer_bytes : Zkid.Bytes) (issue_date expiry_date : Nat)
    (vc_signature_str issuer_pubkey_str : Zkid.Bytes) (nonce : Nat)
    (proof_out_size : Nat) : Int × Option Zkid.Bytes :=
  match keys with
  | .error _ => (-1, none)
  | .ok none => (-1, none)
  | .ok (some (pk, _)) =>
      match hex_to_bytes issuer_pubkey_str with
      | none => (-1, none)
      | some issuer_pubkey_bytes =>
          match hex_to_bytes vc_signature_str with
          | none => (-1, none)
          | some _ =>
              let vc_message_hash := sha256 (signMessageBytes holder_id_bytes
                issuer_bytes issue_date expiry_date)
              let vc_hash_field := hash_bytes_to_field sha256 vc_message_hash
              let issuer_pubkey_hash_field :=
                hash_bytes_to_field sha256 issuer_pubkey_bytes
              let nonce_field := frFrom nonce
              let circuit : VCCircuit :=
                ⟨some vc_hash_field, some issuer_pubkey_hash_field, some nonce_field⟩
              match G.prove pk circuit nonce with
              | none => (-1, none)
              | some proof =>
                  match G.serializeCompressed proof with
                  | none => (-1, none)
                  | some proof_bytes =>
                      let proof_hex := bytes_to_hex proof_bytes
                      if proof_out_size < proof_hex.length + 1 then (-1, none)
                      else (0, some proof_hex)

/-- `ZK_GenerateVCProof` (zkid-vc): null checks; step 1 re-verifies the VC
signature through `ZK_VerifyVCSignature` and aborts unless it returns 1;
step 2 aborts when `current_time < issue_date || current_time >
expiry_date`; then steps 3 through 8. -/
def ZK_GenerateVCProof (G : Groth16Cap VCCircuit) (ed : Ed25519Cap)
    (sha256 : Zkid.Bytes → Zkid.Bytes) (keys : KeyStore G.PK G.PVK)
    (holder_id issuer : Option Zkid.Bytes) (issue_date expiry_date : Nat)
    (vc_signature issuer_pubkey : Option Zkid.Bytes)
    (current_time nonce : Nat) (proof_out : Option Unit)
    (proof_out_size : Nat) : Int × Option Zkid.Bytes :=
  match holder_id, issuer, vc_signature, issuer_pubkey, proof_out with
  | some holder_id_bytes, some issuer_bytes, some vc_signature_str,
      some issuer_pubkey_str, some _ =>
      if ZK_VerifyVCSignature ed sha256 (some holder_id_bytes)
          (some issuer_bytes) issue_date expiry_date (some vc_signature_str)
          (some issuer_pubkey_str) ≠ 1 then (-1, none)
      else if current_time < issue_date ∨ current_time > expiry_date then
        (-1, none)
      else
        generateVCProofFromStep3 G sha256 keys holder_id_bytes issuer_bytes
          issue_date expiry_date vc_signature_str issuer_pubkey_str nonce
          proof_out_size
  | _, _, _, _, _ => (-1, none)

/-- `ZK_VerifyVCProof` (zkid-vc): null checks, key lookup, hex-decode and
deserialize the proof, hex-decode the issuer public key, and call
`verify_with_processed_vk` with public inputs
`[issuer_pubkey_hash_field, nonce]`; the `_current_time` argument is
accepted but never read.  Returns 1 exactly on `Ok(true)`, 0 otherwise. -/
def ZK_VerifyVCProof (G : Groth16Cap VCCircuit)
    (sha256 : Zkid.Bytes → Zkid.Bytes) (keys : KeyStore G.PK G.PVK)
    (proof_hex : Option Zkid.Bytes) (issuer_pubkey : Option Zkid.Bytes)
    (current_time : Nat) (nonce : Nat) : Int :=
  match proof_hex, issuer_pubkey with
  | some proof_hex_str, some issuer_pubkey_str =>
      match keys with
      | .error _ => 0
      | .ok none => 0
      | .ok (some (_, pvk)) =>
          match hex_to_bytes proof_hex_str with
          | none => 0
          | some proof_bytes =>
              match G.deserializeCompressed proof_bytes with
              | none => 0
              | some proof =>
                  match hex_to_bytes issuer_pubkey_str with
                  | none => 0
                  | some issuer_pubkey_bytes =>
                      let issuer_pubkey_hash_field :=
                        hash_bytes_to_field sha256 issuer_pubkey_bytes
                      let nonce_field := frFrom nonce
                      let public_inputs := [issuer_pubkey_hash_field, nonce_field]
                      match G.verify pvk public_inputs proof with
                      | some true => 1
                      | some false => 0
                      | none => 0
  | _, _ => 0

end VC

/-- Little-endian interpretation of a byte string as an unsigned
integer. -/
def leNat : Bytes → Nat
  | [] => 0
  | b :: rest => b + 256 * leNat rest

/-- The digest-to-field encoder as the specification words it (§4.1),
for the refinement claim: take the 256-bit digest of the input, interpret
its first 8 bytes as a little-endian unsigned 64-bit integer, reduce
modulo `10^12`, and lift into the field. -/
def encodeSpec (sha256 : Bytes → Bytes) (b : Bytes) : Fr :=
  frFrom (leNat ((sha256 b).take 8) % 10 ^ 12)

/-- Steps of `ZK_GenerateProof` (zkid-acl) after the plaintext hash-match
pre-check: build the assigned circuit, prove with a `StdRng` seeded from
the nonce, serialize, hex-encode, and write if the buffer is large
enough. -/
def ACL.generateProofFromProve (G : Groth16Cap ACL.UserIDCircuit) (pk : G.PK)
    (user_id_hash_field public_id_field : Fr) (nonce proof_out_size : Nat) :
    Int × Option Bytes :=
  let circuit : ACL.UserIDCircuit :=
    ⟨some user_id_hash_field, some public_id_field, some (frFrom nonce)⟩
  match G.prove pk circuit nonce with
  | none => (-1, none)
  | some proof =>
      match G.serializeCompressed proof with
      | none => (-1, none)
      | some proof_bytes =>
          let proof_hex := bytes_to_hex proof_bytes
          if proof_out_size < proof_hex.length + 1 then (-1, none)
          else (0, some proof_hex)

/-- A constant 32-byte digest function: a concrete instantiation of the
out-of-scope SHA-256 capability, used to evaluate the model on closed
inputs. -/
def shaZero : Bytes → Bytes := fun _ => List.replicate 32 0

/-- A constant 32-byte output for the seeded-RNG capability, used to
evaluate the model on closed inputs. -/
def rngZero : Nat → Bytes := fun _ => List.replicate 32 0

/-- A length-sensitive 32-byte digest function: another concrete
instantiation of the out-of-scope SHA-256 capability, whose digests
distinguish inputs by length only; used to evaluate the model on closed
inputs where distinct digests and reduced-value collisions are needed. -/
def shaLen : Bytes → Bytes := fun b => List.replicate 32 (b.length % 256)

/-- A concrete Groth16 capability instance with unit keys and proofs and
an always-accepting verifier, used to evaluate the model on closed
inputs. -/
def trivGroth16 (C : Type) : Groth16Cap C where
  PK := Unit
  VK := Unit
  PVK := Unit
  Pf := Unit
  setup := fun _ _ => some ((), ())
  prepare := fun _ => ()
  prove := fun _ _ _ => some ()
  verify := fun _ _ _ => some true
  serializeCompressed := fun _ => some []
  deserializeCompressed := fun _ => some ()

/-- A concrete Ed25519 capability instance with constant keys and
signatures and an always-accepting verifier, used to evaluate the model
on closed inputs. -/
def trivEd : Ed25519Cap where
  sign := fun _ _ => List.replicate 64 0
  pubkey := fun _ => List.replicate 32 0
  pkValid := fun _ => true
  verify := fun _ _ _ => true

end Zkid

namespace Zkid

theorem bytes_to_hex_length (bs : Bytes) :
    (bytes_to_hex bs).length = 2 * bs.length := by
  induction bs with
  | nil => simp [bytes_to_hex]
  | cons b rest ih => simp [bytes_to_hex, ih]; ring

theorem hexDigit_roundtrip : ∀ b < 16, hexDigitVal (hexDigitChar b) = some b := by
  decide

theorem hex_to_bytes_bytes_to_hex (bs : Bytes) (h : ∀ b ∈ bs, b < 256) :
    hex_to_bytes (bytes_to_hex bs) = some bs := by
  induction bs with
  | nil => rfl
  | cons b rest ih =>
      have hb : b < 256 := h b (by simp)
      have h1 : hexDigitVal (hexDigitChar (b / 16)) = some (b / 16) :=
        hexDigit_roundtrip _ (by omega)
      have h2 : hexDigitVal (hexDigitChar (b % 16)) = some (b % 16) :=
        hexDigit_roundtrip _ (Nat.mod_lt _ (by omega))
      have ih' := ih (fun x hx => h x (by simp [hx]))
      simp [bytes_to_hex, hex_to_bytes, h1, h2, ih', Nat.div_add_mod]

theorem u64FromLeBytes_eq_leNat_take (h : Bytes) :
    u64FromLeBytes h = leNat (h.take 8) := by
  rcases h with _ | ⟨b0, _ | ⟨b1, _ | ⟨b2, _ | ⟨b3, _ | ⟨b4, _ | ⟨b5, _ |
    ⟨b6, _ | ⟨b7, rest⟩⟩⟩⟩⟩⟩⟩⟩ <;>
    simp [u64FromLeBytes, leNat, List.getD]

/-- C2: the digest-to-field encoder is a pure total function; on every
byte string it equals the field element obtained by taking the SHA-256
digest, reading its first 8 bytes as a little-endian unsigned 64-bit
integer, and reducing modulo `10^12` (the specification-worded
`encodeSpec`); equal inputs yield equal field elements; and the zkid-acl
and zkid-vc variants compute the identical function. -/
theorem encoder_spec_refinement_and_variants_agree
    (sha256 : Bytes → Bytes) (b b1 b2 : Bytes) :
    ACL.hash_to_field sha256 b = encodeSpec sha256 b ∧
    VC.hash_bytes_to_field sha256 b = ACL.hash_to_field sha256 b ∧
    (b1 = b2 → ACL.hash_to_field sha256 b1 = ACL.hash_to_field sha256 b2) := by
  refine ⟨?_, rfl, fun h => by rw [h]⟩
  show frFrom (u64FromLeBytes (sha256 b) % 1000000000000) =
    frFrom (leNat ((sha256 b).take 8) % 10 ^ 12)
  rw [u64FromLeBytes_eq_leNat_take]
  norm_num

/-- Witness for C2 at the concrete digest capability `shaZero` and
concrete byte strings. -/
theorem encoder_spec_refinement_and_variants_agree_witness :
    ACL.hash_to_field shaZero [] = encodeSpec shaZero [] ∧
    VC.hash_bytes_to_field shaZero [] = ACL.hash_to_field shaZero [] ∧
    ACL.hash_to_field shaZero [0] = ACL.hash_to_field shaZero [0] :=
  ⟨(encoder_spec_refinement_and_variants_agree shaZero [] [0] [0]).1,
   (encoder_spec_refinement_and_variants_agree shaZero [] [0] [0]).2.1,
   (encoder_spec_refinement_and_variants_agree shaZero [] [0] [0]).2.2 rfl⟩

/-- C9: `ZK_VerifyVCProof` never reads its `current_time` argument: for
fixed proof hex, issuer public key, nonce and key-store state, every
value of `current_time` yields the same return value, so no validity
window is re-checked at verification time. -/
theorem verify_vc_proof_ignores_current_time
    (G : Groth16Cap VC.VCCircuit) (sha256 : Bytes → Bytes)
    (keys : KeyStore G.PK G.PVK) (proof_hex issuer_pubkey : Option Bytes)
    (t1 t2 nonce : Nat) :
    VC.ZK_VerifyVCProof G sha256 keys proof_hex issuer_pubkey t1 nonce =
    VC.ZK_VerifyVCProof G sha256 keys proof_hex issuer_pubkey t2 nonce := rfl

/-- C5: the VC time-window pre-check is a closed interval inclusive at
both ends: `ZK_GenerateVCProof` returns -1 whenever `current_time <
issue_date` or `current_time > expiry_date`; when the signature pre-check
passes and `issue_date ≤ current_time ≤ expiry_date` the time check does
not abort and the call continues with steps 3-8; in particular
`issue_date - 1` (for a positive issue date) and `expiry_date + 1` both
fail, while both endpoints pass the time check. -/
theorem vc_time_window_closed_interval
    (G : Groth16Cap VC.VCCircuit) (ed : Ed25519Cap) (sha256 : Bytes → Bytes)
    (keys : KeyStore G.PK G.PVK)
    (holder_id issuer vc_signature issuer_pubkey : Option Bytes)
    (hb ib ss ps : Bytes) (issue_date expiry_date current_time nonce : Nat)
    (proof_out : Option Unit) (proof_out_size : Nat) :
    (current_time < issue_date ∨ current_time > expiry_date →
      VC.ZK_GenerateVCProof G ed sha256 keys holder_id issuer issue_date
        expiry_date vc_signature issuer_pubkey current_time nonce proof_out
        proof_out_size = (-1, none)) ∧
    (issue_date ≤ current_time → current_time ≤ expiry_date →
      VC.ZK_VerifyVCSignature ed sha256 (some hb) (some ib) issue_date
        expiry_date (some ss) (some ps) = 1 →
      VC.ZK_GenerateVCProof G ed sha256 keys (some hb) (some ib) issue_date
        expiry_date (some ss) (some ps) current_time nonce (some ())
        proof_out_size =
      VC.generateVCProofFromStep3 G sha256 keys hb ib issue_date expiry_date
        ss ps nonce proof_out_size) ∧
    (1 ≤ issue_date →
      VC.ZK_GenerateVCProof G ed sha256 keys holder_id issuer issue_date
        expiry_date vc_signature issuer_pubkey (issue_date - 1) nonce
        proof_out proof_out_size = (-1, none)) ∧
    VC.ZK_GenerateVCProof G ed sha256 keys holder_id issuer issue_date
      expiry_date vc_signature issuer_pubkey (expiry_date + 1) nonce
      proof_out proof_out_size = (-1, none) := by
  have main : ∀ t, t < issue_date ∨ t > expiry_date →
      VC.ZK_GenerateVCProof G ed sha256 keys holder_id issuer issue_date
        expiry_date vc_signature issuer_pubkey t nonce proof_out
        proof_out_size = (-1, none) := by
    intro t ht
    rcases holder_id with _ | hb0 <;> rcases issuer with _ | ib0 <;>
      rcases vc_signature with _ | ss0 <;> rcases issuer_pubkey with _ | ps0 <;>
      rcases proof_out with _ | u0 <;> try rfl
    simp only [VC.ZK_GenerateVCProof]
    split
    · rfl
    · rfl
  refine ⟨main current_time, ?_, fun h1 => main _ (Or.inl (by omega)),
    main _ (Or.inr (by omega))⟩
  intro h1 h2 hsig
  simp only [VC.ZK_GenerateVCProof]
  rw [if_neg (not_not_intro hsig), if_neg (by omega)]

set_option maxRecDepth 16000 in
/-- Witness for C5 at concrete inputs: with the window `[1, 2]`, time 0 is
rejected and time 1 proceeds to steps 3-8. -/
theorem vc_time_window_closed_interval_witness :
    VC.ZK_GenerateVCProof (trivGroth16 VC.VCCircuit) trivEd shaZero
      (Except.ok (some ((), ()))) (some []) (some []) 1 2
      (some (bytes_to_hex (List.replicate 64 0)))
      (some (bytes_to_hex (List.replicate 32 0))) 0 0 (some ()) 1 =
      (-1, none) ∧
    VC.ZK_GenerateVCProof (trivGroth16 VC.VCCircuit) trivEd shaZero
      (Except.ok (some ((), ()))) (some []) (some []) 1 2
      (some (bytes_to_hex (List.replicate 64 0)))
      (some (bytes_to_hex (List.replicate 32 0))) 1 0 (some ()) 1 =
      VC.generateVCProofFromStep3 (trivGroth16 VC.VCCircuit) shaZero
        (Except.ok (some ((), ()))) [] [] 1 2
        (bytes_to_hex (List.replicate 64 0))
        (bytes_to_hex (List.replicate 32 0)) 0 1 :=
  ⟨(vc_time_window_closed_interval (trivGroth16 VC.VCCircuit) trivEd shaZero
      (Except.ok (some ((), ()))) (some []) (some [])
      (some (bytes_to_hex (List.replicate 64 0)))
      (some (bytes_to_hex (List.replicate 32 0))) [] []
      (bytes_to_hex (List.replicate 64 0))
      (bytes_to_hex (List.replicate 32 0)) 1 2 0 0 (some ()) 1).1
      (Or.inl (by decide)),
   (vc_time_window_closed_interval (trivGroth16 VC.VCCircuit) trivEd shaZero
      (Except.ok (some ((), ()))) (some []) (some [])
      (some (bytes_to_hex (List.replicate 64 0)))
      (some (bytes_to_hex (List.replicate 32 0))) [] []
      (bytes_to_hex (List.replicate 64 0))
      (bytes_to_hex (List.replicate 32 0)) 1 2 1 0 (some ()) 1).2.1
      (by decide) (by decide) (by decide)⟩

/-- C7: every hex-output operation (`ZK_ComputePublicID`,
`ZK_GenerateIssuerKeypair`, `ZK_SignVC`, `ZK_ComputeVCHash`,
`ZK_GenerateProof`, `ZK_GenerateVCProof`) verifies capacity before
writing: when the output buffer capacity is smaller than the produced
hex string plus one byte for the null terminator, the operation returns
-1 and writes nothing to any output buffer (for the two proof
generators: every call either succeeds with a written hex string that
fits together with its terminator, or fails having written nothing); in
particular, with the 32-byte digest and 32-byte keys the sources
produce, a capacity of exactly 64 (one byte short of the required 65)
fails with every buffer unwritten. -/
theorem hex_output_buffer_capacity_check
    (sha256 : Bytes → Bytes) (ed : Ed25519Cap) (rngBytes32 : Nat → Bytes)
    (G : Groth16Cap ACL.UserIDCircuit) (G2 : Groth16Cap VC.VCCircuit)
    (keys : KeyStore G.PK G.PVK) (keys2 : KeyStore G2.PK G2.PVK)
    (uid hb ib privhex pids ss ps : Bytes)
    (public_id_size pub_size priv_size issue_date expiry_date t nonce : Nat)
    (sig_size vh_size gp_size gv_size : Nat) :
    (public_id_size < (bytes_to_hex (sha256 uid)).length + 1 →
      ACL.ZK_ComputePublicID sha256 (some uid) (some ()) public_id_size =
        (-1, none)) ∧
    ((sha256 uid).length = 32 →
      ACL.ZK_ComputePublicID sha256 (some uid) (some ()) 64 = (-1, none)) ∧
    (pub_size <
        (bytes_to_hex (ed.pubkey (rngBytes32 VC.issuerKeypairSeed))).length + 1 ∨
     priv_size < (bytes_to_hex (rngBytes32 VC.issuerKeypairSeed)).length + 1 →
      VC.ZK_GenerateIssuerKeypair ed rngBytes32 (some ()) (some ()) pub_size
        priv_size = (-1, none, none)) ∧
    ((ed.pubkey (rngBytes32 VC.issuerKeypairSeed)).length = 32 →
      (rngBytes32 VC.issuerKeypairSeed).length = 32 →
      VC.ZK_GenerateIssuerKeypair ed rngBytes32 (some ()) (some ()) 64 65 =
        (-1, none, none) ∧
      VC.ZK_GenerateIssuerKeypair ed rngBytes32 (some ()) (some ()) 65 64 =
        (-1, none, none)) ∧
    (∀ skb, hex_to_bytes privhex = some skb →
      sig_size < (bytes_to_hex (ed.sign skb
        (sha256 (VC.signMessageBytes hb ib issue_date expiry_date)))).length + 1 →
      VC.ZK_SignVC ed sha256 (some hb) (some ib) issue_date expiry_date
        (some privhex) (some ()) sig_size = (-1, none)) ∧
    (vh_size < (bytes_to_hex (sha256 (VC.signMessageBytes hb ib issue_date
        expiry_date))).length + 1 →
      VC.ZK_ComputeVCHash sha256 (some hb) (some ib) issue_date expiry_date
        (some ()) vh_size = (-1, none)) ∧
    ((∃ hx, ACL.ZK_GenerateProof G sha256 keys (some uid) (some pids) nonce
        (some ()) gp_size = (0, some hx) ∧ ¬ gp_size < hx.length + 1) ∨
      ACL.ZK_GenerateProof G sha256 keys (some uid) (some pids) nonce
        (some ()) gp_size = (-1, none)) ∧
    ((∃ hx, VC.ZK_GenerateVCProof G2 ed sha256 keys2 (some hb) (some ib)
        issue_date expiry_date (some ss) (some ps) t nonce (some ()) gv_size =
        (0, some hx) ∧ ¬ gv_size < hx.length + 1) ∨
      VC.ZK_GenerateVCProof G2 ed sha256 keys2 (some hb) (some ib)
        issue_date expiry_date (some ss) (some ps) t nonce (some ()) gv_size =
        (-1, none)) := by
  have p1 : ∀ s, s < (bytes_to_hex (sha256 uid)).length + 1 →
      ACL.ZK_ComputePublicID sha256 (some uid) (some ()) s = (-1, none) := by
    intro s hs
    simp only [ACL.ZK_ComputePublicID]
    rw [if_pos hs]
  have p3 : ∀ s1 s2,
      s1 < (bytes_to_hex (ed.pubkey (rngBytes32 VC.issuerKeypairSeed))).length + 1 ∨
      s2 < (bytes_to_hex (rngBytes32 VC.issuerKeypairSeed)).length + 1 →
      VC.ZK_GenerateIssuerKeypair ed rngBytes32 (some ()) (some ()) s1 s2 =
        (-1, none, none) := by
    intro s1 s2 hs
    simp only [VC.ZK_GenerateIssuerKeypair]
    rw [if_pos hs]
  refine ⟨p1 public_id_size, ?_, p3 pub_size priv_size, ?_, ?_, ?_, ?_, ?_⟩
  · intro hlen
    exact p1 64 (by rw [bytes_to_hex_length, hlen]; omega)
  · intro hpub hpriv
    constructor
    · exact p3 64 65 (Or.inl (by rw [bytes_to_hex_length, hpub]; omega))
    · exact p3 65 64 (Or.inr (by rw [bytes_to_hex_length, hpriv]; omega))
  · intro skb hdec hsmall
    simp only [VC.ZK_SignVC, hdec]
    by_cases hl : skb.length ≠ 32
    · rw [if_pos hl]
    · rw [if_neg hl, if_pos hsmall]
  · intro hsmall
    simp only [VC.ZK_ComputeVCHash]
    rw [if_pos hsmall]
  · simp only [ACL.ZK_GenerateProof]
    repeat' split
    all_goals first
      | exact Or.inr rfl
      | exact Or.inl ⟨_, rfl, by assumption⟩
  · simp only [VC.ZK_GenerateVCProof, VC.generateVCProofFromStep3]
    repeat' split
    all_goals first
      | exact Or.inr rfl
      | exact Or.inl ⟨_, rfl, by assumption⟩

/-- Witness for C7 at concrete capabilities: a 64-byte buffer (one short
of the 65 required for a 64-character hex string plus terminator) fails
with nothing written. -/
theorem hex_output_buffer_capacity_check_witness :
    ACL.ZK_ComputePublicID shaZero (some []) (some ()) 64 = (-1, none) ∧
    VC.ZK_GenerateIssuerKeypair trivEd rngZero (some ()) (some ()) 64 65 =
      (-1, none, none) :=
  ⟨(hex_output_buffer_capacity_check shaZero trivEd rngZero
      (trivGroth16 ACL.UserIDCircuit) (trivGroth16 VC.VCCircuit)
      (Except.ok none) (Except.ok none) [] [] [] [] [] [] []
      64 64 65 0 0 0 0 0 0 0 0).2.1 (by decide),
   ((hex_output_buffer_capacity_check shaZero trivEd rngZero
      (trivGroth16 ACL.UserIDCircuit) (trivGroth16 VC.VCCircuit)
      (Except.ok none) (Except.ok none) [] [] [] [] [] [] []
      64 64 65 0 0 0 0 0 0 0 0).2.2.2.1 (by decide) (by decide)).1⟩

/-- C8: `ZK_GenerateIssuerKeypair` is fully deterministic: its RNG is
seeded with the hard-coded constant `0x1234567890ABCDEF`, so every
successful call (with any buffer sizes, in any process running the same
external libraries) writes the identical public-key hex — the hex of the
verifying key derived from the 32 bytes the seeded RNG emits — and the
identical private-key hex — the hex of those 32 bytes. -/
theorem issuer_keypair_fixed_seed_deterministic
    (ed : Ed25519Cap) (rngBytes32 : Nat → Bytes)
    (s1 s2 s3 s4 : Nat) (o1 o2 o3 o4 : Option Bytes)
    (h1 : VC.ZK_GenerateIssuerKeypair ed rngBytes32 (some ()) (some ()) s1 s2 =
      (0, o1, o2))
    (h2 : VC.ZK_GenerateIssuerKeypair ed rngBytes32 (some ()) (some ()) s3 s4 =
      (0, o3, o4)) :
    o1 = some (bytes_to_hex (ed.pubkey (rngBytes32 0x1234567890ABCDEF))) ∧
    o2 = some (bytes_to_hex (rngBytes32 0x1234567890ABCDEF)) ∧
    o1 = o3 ∧ o2 = o4 := by
  simp only [VC.ZK_GenerateIssuerKeypair, VC.issuerKeypairSeed] at h1 h2
  split at h1
  · exact absurd h1 (by simp)
  · split at h2
    · exact absurd h2 (by simp)
    · simp only [Prod.mk.injEq, true_and] at h1 h2
      exact ⟨h1.1.symm, h1.2.symm, h1.1.symm.trans h2.1, h1.2.symm.trans h2.2⟩

/-- Witness for C8: two successful concrete calls with different buffer
sizes produce the same fixed outputs. -/
theorem issuer_keypair_fixed_seed_deterministic_witness :
    some (bytes_to_hex (List.replicate 32 0)) =
      some (bytes_to_hex (trivEd.pubkey (rngZero 0x1234567890ABCDEF))) ∧
    some (bytes_to_hex (List.replicate 32 0)) =
      some (bytes_to_hex (rngZero 0x1234567890ABCDEF)) ∧
    (some (bytes_to_hex (List.replicate 32 0)) : Option Bytes) =
      some (bytes_to_hex (List.replicate 32 0)) ∧
    (some (bytes_to_hex (List.replicate 32 0)) : Option Bytes) =
      some (bytes_to_hex (List.replicate 32 0)) :=
  issuer_keypair_fixed_seed_deterministic trivEd rngZero 65 65 66 70
    (some (bytes_to_hex (List.replicate 32 0)))
    (some (bytes_to_hex (List.replicate 32 0)))
    (some (bytes_to_hex (List.replicate 32 0)))
    (some (bytes_to_hex (List.replicate 32 0)))
    (by decide) (by decide)

theorem acl_generateProof_ok (G : Groth16Cap ACL.UserIDCircuit)
    (sha256 : Bytes → Bytes) (keys : KeyStore G.PK G.PVK)
    (uid pids : Bytes) (nonce size : Nat) (hx : Bytes)
    (h : ACL.ZK_GenerateProof G sha256 keys (some uid) (some pids) nonce
      (some ()) size = (0, some hx)) :
    ∃ pk pvk pidb pf pb, keys = Except.ok (some (pk, pvk)) ∧
      hex_to_bytes pids = some pidb ∧
      ACL.hash_to_field sha256 (sha256 uid) = ACL.hash_to_field sha256 pidb ∧
      G.prove pk ⟨some (ACL.hash_to_field sha256 (sha256 uid)),
        some (ACL.hash_to_field sha256 pidb), some (frFrom nonce)⟩ nonce =
        some pf ∧
      G.serializeCompressed pf = some pb ∧
      ¬ size < (bytes_to_hex pb).length + 1 ∧ hx = bytes_to_hex pb := by
  simp only [ACL.ZK_GenerateProof] at h
  split at h
  · exact absurd h (by simp)
  · exact absurd h (by simp)
  · rename_i pk x
    split at h
    · exact absurd h (by simp)
    · rename_i pidb hdec
      split at h
      · exact absurd h (by simp)
      · rename_i hne
        split at h
        · exact absurd h (by simp)
        · rename_i pf hprove
          split at h
          · exact absurd h (by simp)
          · rename_i pb hser
            split at h
            · exact absurd h (by simp)
            · rename_i hsize
              simp only [Prod.mk.injEq, Option.some.injEq, true_and] at h
              exact ⟨pk, x, pidb, pf, pb, rfl, hdec, not_not.mp hne,
                hprove, hser, hsize, h.symm⟩

theorem vc_step3_ok (G : Groth16Cap VC.VCCircuit)
    (sha256 : Bytes → Bytes) (keys : KeyStore G.PK G.PVK)
    (hb ib : Bytes) (issue_date expiry_date : Nat) (ss ps : Bytes)
    (nonce size : Nat) (hx : Bytes)
    (h : VC.generateVCProofFromStep3 G sha256 keys hb ib issue_date
      expiry_date ss ps nonce size = (0, some hx)) :
    ∃ pk pvk ipb pf pb, keys = Except.ok (some (pk, pvk)) ∧
      hex_to_bytes ps = some ipb ∧
      G.prove pk ⟨some (VC.hash_bytes_to_field sha256
          (sha256 (VC.signMessageBytes hb ib issue_date expiry_date))),
        some (VC.hash_bytes_to_field sha256 ipb), some (frFrom nonce)⟩ nonce =
        some pf ∧
      G.serializeCompressed pf = some pb ∧
      ¬ size < (bytes_to_hex pb).length + 1 ∧ hx = bytes_to_hex pb := by
  simp only [VC.generateVCProofFromStep3] at h
  split at h
  · exact absurd h (by simp)
  · exact absurd h (by simp)
  · rename_i pk x
    split at h
    · exact absurd h (by simp)
    · rename_i ipb hdec
      split at h
      · exact absurd h (by simp)
      · rename_i sb hsb
        split at h
        · exact absurd h (by simp)
        · rename_i pf hprove
          split at h
          · exact absurd h (by simp)
          · rename_i pb hser
            split at h
            · exact absurd h (by simp)
            · rename_i hsize
              simp only [Prod.mk.injEq, Option.some.injEq, true_and] at h
              exact ⟨pk, x, ipb, pf, pb, rfl, hdec, hprove, hser, hsize,
                h.symm⟩

theorem vc_generate_ok (G : Groth16Cap VC.VCCircuit) (ed : Ed25519Cap)
    (sha256 : Bytes → Bytes) (keys : KeyStore G.PK G.PVK)
    (hb ib : Bytes) (issue_date expiry_date : Nat) (ss ps : Bytes)
    (current_time nonce size : Nat) (hx : Bytes)
    (h : VC.ZK_GenerateVCProof G ed sha256 keys (some hb) (some ib) issue_date
      expiry_date (some ss) (some ps) current_time nonce (some ()) size =
      (0, some hx)) :
    VC.ZK_VerifyVCSignature ed sha256 (some hb) (some ib) issue_date
      expiry_date (some ss) (some ps) = 1 ∧
    ¬ (current_time < issue_date ∨ current_time > expiry_date) ∧
    VC.generateVCProofFromStep3 G sha256 keys hb ib issue_date expiry_date
      ss ps nonce size = (0, some hx) := by
  simp only [VC.ZK_GenerateVCProof] at h
  split at h
  · exact absurd h (by simp)
  · rename_i hsig
    split at h
    · exact absurd h (by simp)
    · rename_i ht
      exact ⟨not_not.mp hsig, ht, h⟩

/-- C10: `ZK_GenerateProof` (zkid-acl) performs a plaintext pre-check
before proving: whenever the encoded field value of SHA-256(user_id)
differs from the encoded field value of the hex-decoded public id, it
returns -1 (for every Groth16 capability, so independently of the
prover); and whenever the two encoded values agree — the comparison is on
the values reduced modulo `10^12`, so any public id whose digest agrees
with SHA-256(user_id) only on that reduced value also passes — the call
proceeds to the proving continuation. -/
theorem acl_generate_proof_plaintext_precheck
    (G : Groth16Cap ACL.UserIDCircuit) (sha256 : Bytes → Bytes)
    (keys : KeyStore G.PK G.PVK) (uid pids pidb : Bytes) (nonce size : Nat)
    (hdec : hex_to_bytes pids = some pidb) :
    (ACL.hash_to_field sha256 (sha256 uid) ≠ ACL.hash_to_field sha256 pidb →
      ACL.ZK_GenerateProof G sha256 keys (some uid) (some pids) nonce
        (some ()) size = (-1, none)) ∧
    (∀ pk pvk, keys = Except.ok (some (pk, pvk)) →
      ACL.hash_to_field sha256 (sha256 uid) = ACL.hash_to_field sha256 pidb →
      ACL.ZK_GenerateProof G sha256 keys (some uid) (some pids) nonce
        (some ()) size =
      ACL.generateProofFromProve G pk (ACL.hash_to_field sha256 (sha256 uid))
        (ACL.hash_to_field sha256 pidb) nonce size) := by
  constructor
  · intro hne
    rcases keys with e | k
    · rfl
    · rcases k with _ | ⟨pk, pvk⟩
      · rfl
      · simp only [ACL.ZK_GenerateProof, hdec]
        rw [if_pos hne]
  · intro pk pvk hk heq
    subst hk
    simp only [ACL.ZK_GenerateProof, ACL.generateProofFromProve, hdec]
    rw [if_neg (not_not_intro heq)]

/-- Witness for C10 with the length-sensitive digest capability: a
mismatching public id is rejected with -1, and a public id whose bytes
differ from SHA-256(user_id) but whose encoded field value coincides
passes the check and reaches the proving continuation. -/
theorem acl_generate_proof_plaintext_precheck_witness :
    ACL.ZK_GenerateProof (trivGroth16 ACL.UserIDCircuit) shaLen
      (Except.ok (some ((), ()))) (some []) (some []) 0 (some ()) 1 =
      (-1, none) ∧
    ACL.ZK_GenerateProof (trivGroth16 ACL.UserIDCircuit) shaLen
      (Except.ok (some ((), ()))) (some [])
      (some (bytes_to_hex (List.replicate 32 1))) 0 (some ()) 1 =
      ACL.generateProofFromProve (trivGroth16 ACL.UserIDCircuit) ()
        (ACL.hash_to_field shaLen (shaLen []))
        (ACL.hash_to_field shaLen (List.replicate 32 1)) 0 1 :=
  ⟨(acl_generate_proof_plaintext_precheck (trivGroth16 ACL.UserIDCircuit)
      shaLen (Except.ok (some ((), ()))) [] [] [] 0 1 (by decide)).1
      (by decide),
   (acl_generate_proof_plaintext_precheck (trivGroth16 ACL.UserIDCircuit)
      shaLen (Except.ok (some ((), ()))) []
      (bytes_to_hex (List.replicate 32 1)) (List.replicate 32 1) 0 1
      (by decide)).2 () () rfl (by decide)⟩

/-- C4: proof generation is deterministic in the nonce: in both variants
a successful call's proof hex is fully determined by the installed key
pair, the witness inputs, and the nonce — the `StdRng` passed to the
prover is seeded with the caller-supplied nonce itself — so two calls
with identical witness inputs, identical nonce and the same key pair
(even with different output-buffer capacities) write byte-identical proof
hex strings. -/
theorem proof_generation_deterministic_in_nonce
    (G : Groth16Cap ACL.UserIDCircuit) (G2 : Groth16Cap VC.VCCircuit)
    (ed : Ed25519Cap) (sha256 sha2 : Bytes → Bytes)
    (keys : KeyStore G.PK G.PVK) (keys2 : KeyStore G2.PK G2.PVK)
    (uid pids hb ib ss ps : Bytes)
    (nonce sA sB issue_date expiry_date t1 t2 nonce2 sC sD : Nat)
    (hxA hxB hxC hxD : Bytes)
    (h1 : ACL.ZK_GenerateProof G sha256 keys (some uid) (some pids) nonce
      (some ()) sA = (0, some hxA))
    (h2 : ACL.ZK_GenerateProof G sha256 keys (some uid) (some pids) nonce
      (some ()) sB = (0, some hxB))
    (h3 : VC.ZK_GenerateVCProof G2 ed sha2 keys2 (some hb) (some ib)
      issue_date expiry_date (some ss) (some ps) t1 nonce2 (some ()) sC =
      (0, some hxC))
    (h4 : VC.ZK_GenerateVCProof G2 ed sha2 keys2 (some hb) (some ib)
      issue_date expiry_date (some ss) (some ps) t2 nonce2 (some ()) sD =
      (0, some hxD)) :
    hxA = hxB ∧ hxC = hxD ∧
    (∃ pk pvk pidb pf pb, keys = Except.ok (some (pk, pvk)) ∧
      hex_to_bytes pids = some pidb ∧
      G.prove pk ⟨some (ACL.hash_to_field sha256 (sha256 uid)),
        some (ACL.hash_to_field sha256 pidb), some (frFrom nonce)⟩ nonce =
        some pf ∧
      G.serializeCompressed pf = some pb ∧ hxA = bytes_to_hex pb) ∧
    (∃ pk pvk ipb pf pb, keys2 = Except.ok (some (pk, pvk)) ∧
      hex_to_bytes ps = some ipb ∧
      G2.prove pk ⟨some (VC.hash_bytes_to_field sha2
          (sha2 (VC.signMessageBytes hb ib issue_date expiry_date))),
        some (VC.hash_bytes_to_field sha2 ipb), some (frFrom nonce2)⟩ nonce2 =
        some pf ∧
      G2.serializeCompressed pf = some pb ∧ hxC = bytes_to_hex pb) := by
  obtain ⟨pk, pvk, pidb, pf, pb, hk, hdec, _, hp, hs, _, hxe⟩ :=
    acl_generateProof_ok G sha256 keys uid pids nonce sA hxA h1
  obtain ⟨pk', pvk', pidb', pf', pb', hk', hdec', _, hp', hs', _, hxe'⟩ :=
    acl_generateProof_ok G sha256 keys uid pids nonce sB hxB h2
  obtain ⟨-, -, h3s⟩ := vc_generate_ok G2 ed sha2 keys2 hb ib issue_date
    expiry_date ss ps t1 nonce2 sC hxC h3
  obtain ⟨-, -, h4s⟩ := vc_generate_ok G2 ed sha2 keys2 hb ib issue_date
    expiry_date ss ps t2 nonce2 sD hxD h4
  obtain ⟨qk, qvk, ipb, qf, qb, hk2, hdec2, hp2, hs2, _, hxe2⟩ :=
    vc_step3_ok G2 sha2 keys2 hb ib issue_date expiry_date ss ps nonce2 sC
      hxC h3s
  obtain ⟨qk', qvk', ipb', qf', qb', hk2', hdec2', hp2', hs2', _, hxe2'⟩ :=
    vc_step3_ok G2 sha2 keys2 hb ib issue_date expiry_date ss ps nonce2 sD
      hxD h4s
  rw [hk] at hk'
  obtain ⟨hpk, hpvk⟩ : pk = pk' ∧ pvk = pvk' := by
    simpa [Prod.ext_iff] using hk'
  subst hpk hpvk
  rw [hdec] at hdec'
  obtain rfl : pidb = pidb' := by simpa using hdec'
  rw [hp] at hp'
  obtain rfl : pf = pf' := by simpa using hp'
  rw [hs] at hs'
  obtain rfl : pb = pb' := by simpa using hs'
  rw [hk2] at hk2'
  obtain ⟨hqk, hqvk⟩ : qk = qk' ∧ qvk = qvk' := by
    simpa [Prod.ext_iff] using hk2'
  subst hqk hqvk
  rw [hdec2] at hdec2'
  obtain rfl : ipb = ipb' := by simpa using hdec2'
  rw [hp2] at hp2'
  obtain rfl : qf = qf' := by simpa using hp2'
  rw [hs2] at hs2'
  obtain rfl : qb = qb' := by simpa using hs2'
  exact ⟨hxe.trans hxe'.symm, hxe2.trans hxe2'.symm,
    ⟨pk, pvk, pidb, pf, pb, hk, hdec, hp, hs, hxe⟩,
    ⟨qk, qvk, ipb, qf, qb, hk2, hdec2, hp2, hs2, hxe2⟩⟩

set_option maxRecDepth 16000 in
/-- Witness for C4: concrete successful generate calls per variant (with
buffer sizes 1 and 2, and in-window times 1 and 2 for the VC variant)
produce identical (empty) proof hex strings under the concrete
capabilities. -/
theorem proof_generation_deterministic_in_nonce_witness :
    ACL.ZK_GenerateProof (trivGroth16 ACL.UserIDCircuit) shaZero
      (Except.ok (some ((), ()))) (some []) (some []) 0 (some ()) 1 =
      (0, some []) ∧
    ACL.ZK_GenerateProof (trivGroth16 ACL.UserIDCircuit) shaZero
      (Except.ok (some ((), ()))) (some []) (some []) 0 (some ()) 2 =
      (0, some []) ∧
    VC.ZK_GenerateVCProof (trivGroth16 VC.VCCircuit) trivEd shaZero
      (Except.ok (some ((), ()))) (some []) (some []) 1 2
      (some (bytes_to_hex (List.replicate 64 0)))
      (some (bytes_to_hex (List.replicate 32 0))) 1 0 (some ()) 1 =
      (0, some []) ∧
    VC.ZK_GenerateVCProof (trivGroth16 VC.VCCircuit) trivEd shaZero
      (Except.ok (some ((), ()))) (some []) (some []) 1 2
      (some (bytes_to_hex (List.replicate 64 0)))
      (some (bytes_to_hex (List.replicate 32 0))) 2 0 (some ()) 2 =
      (0, some []) ∧
    ([] : Bytes) = [] ∧ ([] : Bytes) = [] :=
  ⟨by decide, by decide, by decide, by decide,
   (proof_generation_deterministic_in_nonce (trivGroth16 ACL.UserIDCircuit)
      (trivGroth16 VC.VCCircuit) trivEd shaZero shaZero
      (Except.ok (some ((), ()))) (Except.ok (some ((), ()))) [] [] [] []
      (bytes_to_hex (List.replicate 64 0)) (bytes_to_hex (List.replicate 32 0))
      0 1 2 1 2 1 2 0 1 2 [] [] [] []
      (by decide) (by decide) (by decide) (by decide)).1,
   (proof_generation_deterministic_in_nonce (trivGroth16 ACL.UserIDCircuit)
      (trivGroth16 VC.VCCircuit) trivEd shaZero shaZero
      (Except.ok (some ((), ()))) (Except.ok (some ((), ()))) [] [] [] []
      (bytes_to_hex (List.replicate 64 0)) (bytes_to_hex (List.replicate 32 0))
      0 1 2 1 2 1 2 0 1 2 [] [] [] []
      (by decide) (by decide) (by decide) (by decide)).2.1⟩

/-- C6: the verification-style operations return only 1 (accepted) or 0
(rejected), never any other value, and return 1 only when the external
verify capability explicitly returns `Ok(true)`; every other path — null
argument, invalid hex, proof deserialization failure, absent or
unlockable key store, verify-capability internal error, or cryptographic
false — returns 0. -/
theorem verify_returns_only_zero_or_one
    (G : Groth16Cap ACL.UserIDCircuit) (G2 : Groth16Cap VC.VCCircuit)
    (sha256 sha2 : Bytes → Bytes) (keys : KeyStore G.PK G.PVK)
    (keys2 : KeyStore G2.PK G2.PVK) (ph pid ph2 ipk : Option Bytes)
    (nonce t nonce2 : Nat) :
    (ACL.ZK_VerifyProof G sha256 keys ph pid nonce = 0 ∨
     ACL.ZK_VerifyProof G sha256 keys ph pid nonce = 1) ∧
    (ACL.ZK_VerifyProof G sha256 keys ph pid nonce = 1 →
      ∃ phs pids pk pvk pb pf pib, ph = some phs ∧ pid = some pids ∧
        keys = Except.ok (some (pk, pvk)) ∧ hex_to_bytes phs = some pb ∧
        G.deserializeCompressed pb = some pf ∧ hex_to_bytes pids = some pib ∧
        G.verify pvk [ACL.hash_to_field sha256 pib, frFrom nonce] pf =
          some true) ∧
    (VC.ZK_VerifyVCProof G2 sha2 keys2 ph2 ipk t nonce2 = 0 ∨
     VC.ZK_VerifyVCProof G2 sha2 keys2 ph2 ipk t nonce2 = 1) ∧
    (VC.ZK_VerifyVCProof G2 sha2 keys2 ph2 ipk t nonce2 = 1 →
      ∃ phs ipks pk pvk pb pf ipb, ph2 = some phs ∧ ipk = some ipks ∧
        keys2 = Except.ok (some (pk, pvk)) ∧ hex_to_bytes phs = some pb ∧
        G2.deserializeCompressed pb = some pf ∧ hex_to_bytes ipks = some ipb ∧
        G2.verify pvk [VC.hash_bytes_to_field sha2 ipb, frFrom nonce2] pf =
          some true) := by
  refine ⟨?_, ?_, ?_, ?_⟩
  · simp only [ACL.ZK_VerifyProof]
    repeat' split
    all_goals omega
  · intro h
    simp only [ACL.ZK_VerifyProof] at h
    split at h
    · rename_i phs pids
      split at h
      · exact absurd h (by decide)
      · exact absurd h (by decide)
      · rename_i pk pvk
        split at h
        · exact absurd h (by decide)
        · rename_i pb hpb
          split at h
          · exact absurd h (by decide)
          · rename_i pf hpf
            split at h
            · exact absurd h (by decide)
            · rename_i pib hpib
              split at h
              · rename_i hv
                exact ⟨phs, pids, pk, pvk, pb, pf, pib, rfl, rfl, rfl, hpb,
                  hpf, hpib, hv⟩
              · exact absurd h (by decide)
              · exact absurd h (by decide)
    · exact absurd h (by decide)
  · simp only [VC.ZK_VerifyVCProof]
    repeat' split
    all_goals omega
  · intro h
    simp only [VC.ZK_VerifyVCProof] at h
    split at h
    · rename_i phs ipks
      split at h
      · exact absurd h (by decide)
      · exact absurd h (by decide)
      · rename_i pk pvk
        split at h
        · exact absurd h (by decide)
        · rename_i pb hpb
          split at h
          · exact absurd h (by decide)
          · rename_i pf hpf
            split at h
            · exact absurd h (by decide)
            · rename_i ipb hipb
              split at h
              · rename_i hv
                exact ⟨phs, ipks, pk, pvk, pb, pf, ipb, rfl, rfl, rfl, hpb,
                  hpf, hipb, hv⟩
              · exact absurd h (by decide)
              · exact absurd h (by decide)
    · exact absurd h (by decide)

/-- Witness for C6 at the concrete capabilities: both verifiers return a
value in {0, 1}, and a concrete accepting call exhibits the full success
chain ending in the verify capability returning `Ok(true)`. -/
theorem verify_returns_only_zero_or_one_witness :
    (ACL.ZK_VerifyProof (trivGroth16 ACL.UserIDCircuit) shaZero
        (Except.ok (some ((), ()))) (some []) (some []) 0 = 0 ∨
     ACL.ZK_VerifyProof (trivGroth16 ACL.UserIDCircuit) shaZero
        (Except.ok (some ((), ()))) (some []) (some []) 0 = 1) ∧
    (∃ phs pids pk pvk pb pf pib, (some [] : Option Bytes) = some phs ∧
      (some [] : Option Bytes) = some pids ∧
      (Except.ok (some ((), ())) : KeyStore Unit Unit) =
        Except.ok (some (pk, pvk)) ∧
      hex_to_bytes phs = some pb ∧
      (trivGroth16 ACL.UserIDCircuit).deserializeCompressed pb = some pf ∧
      hex_to_bytes pids = some pib ∧
      (trivGroth16 ACL.UserIDCircuit).verify pvk
        [ACL.hash_to_field shaZero pib, frFrom 0] pf = some true) ∧
    (VC.ZK_VerifyVCProof (trivGroth16 VC.VCCircuit) shaZero
        (Except.ok (some ((), ()))) (some []) (some []) 0 0 = 0 ∨
     VC.ZK_VerifyVCProof (trivGroth16 VC.VCCircuit) shaZero
        (Except.ok (some ((), ()))) (some []) (some []) 0 0 = 1) ∧
    (∃ phs ipks pk pvk pb pf ipb, (some [] : Option Bytes) = some phs ∧
      (some [] : Option Bytes) = some ipks ∧
      (Except.ok (some ((), ())) : KeyStore Unit Unit) =
        Except.ok (some (pk, pvk)) ∧
      hex_to_bytes phs = some pb ∧
      (trivGroth16 VC.VCCircuit).deserializeCompressed pb = some pf ∧
      hex_to_bytes ipks = some ipb ∧
      (trivGroth16 VC.VCCircuit).verify pvk
        [VC.hash_bytes_to_field shaZero ipb, frFrom 0] pf = some true) :=
  ⟨(verify_returns_only_zero_or_one (trivGroth16 ACL.UserIDCircuit)
      (trivGroth16 VC.VCCircuit) shaZero shaZero (Except.ok (some ((), ())))
      (Except.ok (some ((), ()))) (some []) (some []) (some []) (some [])
      0 0 0).1,
   (verify_returns_only_zero_or_one (trivGroth16 ACL.UserIDCircuit)
      (trivGroth16 VC.VCCircuit) shaZero shaZero (Except.ok (some ((), ())))
      (Except.ok (some ((), ()))) (some []) (some []) (some []) (some [])
      0 0 0).2.1 (by decide),
   (verify_returns_only_zero_or_one (trivGroth16 ACL.UserIDCircuit)
      (trivGroth16 VC.VCCircuit) shaZero shaZero (Except.ok (some ((), ())))
      (Except.ok (some ((), ()))) (some []) (some []) (some []) (some [])
      0 0 0).2.2.1,
   (verify_returns_only_zero_or_one (trivGroth16 ACL.UserIDCircuit)
      (trivGroth16 VC.VCCircuit) shaZero shaZero (Except.ok (some ((), ())))
      (Except.ok (some ((), ()))) (some []) (some []) (some []) (some [])
      0 0 0).2.2.2 (by decide)⟩

/-- C1: round-trip.  For every key pair installed by a successful
`ZK_Init`, assuming the external Groth16 capability is complete (a proof
produced from a satisfying assignment verifies against the assignment's
public inputs under the prepared verifying key) and its serializer
round-trips, a proof produced by a successful generate call verifies with
the matching public context and the same nonce: in the ACL variant with
`public_id` the hex of SHA-256(user_id), in the VC variant with a validly
signed credential inside its validity window and the issuer public
key. -/
theorem roundtrip_generate_then_verify_accepts :
    (∀ (G : Groth16Cap ACL.UserIDCircuit) (sha256 : Bytes → Bytes)
      (lockFails : Bool) (pk : G.PK) (pvk : G.PVK) (uid pids phex : Bytes)
      (nonce size : Nat),
      ACL.ZK_Init G lockFails = (0, some (pk, pvk)) →
      (∀ pk' vk c seed pf, G.setup ⟨none, none, none⟩ 0 = some (pk', vk) →
        G.prove pk' c seed = some pf → c.constraintHolds →
        ∀ pins, c.publicInputs = some pins →
          G.verify (G.prepare vk) pins pf = some true) →
      (∀ pf bs, G.serializeCompressed pf = some bs →
        G.deserializeCompressed bs = some pf ∧ ∀ b ∈ bs, b < 256) →
      pids = bytes_to_hex (sha256 uid) →
      ACL.ZK_GenerateProof G sha256 (Except.ok (some (pk, pvk))) (some uid)
        (some pids) nonce (some ()) size = (0, some phex) →
      ACL.ZK_VerifyProof G sha256 (Except.ok (some (pk, pvk))) (some phex)
        (some pids) nonce = 1) ∧
    (∀ (G : Groth16Cap VC.VCCircuit) (ed : Ed25519Cap) (sha2 : Bytes → Bytes)
      (lockFails : Bool) (pk : G.PK) (pvk : G.PVK) (hb ib ss ps phex : Bytes)
      (issue_date expiry_date t tv nonce size : Nat),
      VC.ZK_Init G lockFails = (0, some (pk, pvk)) →
      (∀ pk' vk c seed pf, G.setup ⟨none, none, none⟩ 0 = some (pk', vk) →
        G.prove pk' c seed = some pf → c.constraintHolds →
        ∀ pins, c.publicInputs = some pins →
          G.verify (G.prepare vk) pins pf = some true) →
      (∀ pf bs, G.serializeCompressed pf = some bs →
        G.deserializeCompressed bs = some pf ∧ ∀ b ∈ bs, b < 256) →
      VC.ZK_VerifyVCSignature ed sha2 (some hb) (some ib) issue_date
        expiry_date (some ss) (some ps) = 1 →
      issue_date ≤ t → t ≤ expiry_date →
      VC.ZK_GenerateVCProof G ed sha2 (Except.ok (some (pk, pvk))) (some hb)
        (some ib) issue_date expiry_date (some ss) (some ps) t nonce
        (some ()) size = (0, some phex) →
      VC.ZK_VerifyVCProof G sha2 (Except.ok (some (pk, pvk))) (some phex)
        (some ps) tv nonce = 1) := by
  constructor
  · intro G sha256 lockFails pk pvk uid pids phex nonce size hinit hcomp
      hserde hpid hgen
    obtain ⟨vk0, hset, rfl⟩ : ∃ vk0,
        G.setup ⟨none, none, none⟩ 0 = some (pk, vk0) ∧ pvk = G.prepare vk0 := by
      simp only [ACL.ZK_Init] at hinit
      split at hinit
      · exact absurd hinit (by simp)
      · rename_i pk0 vk0 hset0
        split at hinit
        · exact absurd hinit (by simp)
        · simp only [Prod.mk.injEq, Option.some.injEq, true_and] at hinit
          exact ⟨vk0, hinit.1 ▸ hset0, hinit.2.symm⟩
    obtain ⟨pk1, pvk1, pidb, pf, pb, hk, hdec, heqf, hp, hs, hsize, hxe⟩ :=
      acl_generateProof_ok G sha256 _ uid pids nonce size phex hgen
    obtain ⟨rfl, rfl⟩ : pk = pk1 ∧ G.prepare vk0 = pvk1 := by
      simpa [Prod.ext_iff] using hk
    obtain ⟨hdes, hbytes⟩ := hserde pf pb hs
    subst hxe
    have hver : G.verify (G.prepare vk0)
        [ACL.hash_to_field sha256 pidb, frFrom nonce] pf = some true := by
      refine hcomp pk vk0
        ⟨some (ACL.hash_to_field sha256 (sha256 uid)),
          some (ACL.hash_to_field sha256 pidb), some (frFrom nonce)⟩
        nonce pf hset hp
        ⟨ACL.hash_to_field sha256 (sha256 uid), ACL.hash_to_field sha256 pidb,
          frFrom nonce, rfl, rfl, rfl, ?_⟩
        [ACL.hash_to_field sha256 pidb, frFrom nonce] rfl
      rw [mul_one]; exact heqf
    simp only [ACL.ZK_VerifyProof, hex_to_bytes_bytes_to_hex pb hbytes, hdes,
      hdec, hver]
  · intro G ed sha2 lockFails pk pvk hb ib ss ps phex issue_date expiry_date
      t tv nonce size hinit hcomp hserde hsig ht1 ht2 hgen
    obtain ⟨vk0, hset, rfl⟩ : ∃ vk0,
        G.setup ⟨none, none, none⟩ 0 = some (pk, vk0) ∧ pvk = G.prepare vk0 := by
      simp only [VC.ZK_Init] at hinit
      split at hinit
      · exact absurd hinit (by simp)
      · rename_i pk0 vk0 hset0
        split at hinit
        · exact absurd hinit (by simp)
        · simp only [Prod.mk.injEq, Option.some.injEq, true_and] at hinit
          exact ⟨vk0, hinit.1 ▸ hset0, hinit.2.symm⟩
    obtain ⟨-, -, hstep3⟩ := vc_generate_ok G ed sha2 _ hb ib issue_date
      expiry_date ss ps t nonce size phex hgen
    obtain ⟨pk1, pvk1, ipb, pf, pb, hk, hdec, hp, hs, hsize, hxe⟩ :=
      vc_step3_ok G sha2 _ hb ib issue_date expiry_date ss ps nonce size
        phex hstep3
    obtain ⟨rfl, rfl⟩ : pk = pk1 ∧ G.prepare vk0 = pvk1 := by
      simpa [Prod.ext_iff] using hk
    obtain ⟨hdes, hbytes⟩ := hserde pf pb hs
    subst hxe
    have hver : G.verify (G.prepare vk0)
        [VC.hash_bytes_to_field sha2 ipb, frFrom nonce] pf = some true := by
      refine hcomp pk vk0
        ⟨some (VC.hash_bytes_to_field sha2
            (sha2 (VC.signMessageBytes hb ib issue_date expiry_date))),
          some (VC.hash_bytes_to_field sha2 ipb), some (frFrom nonce)⟩
        nonce pf hset hp
        ⟨VC.hash_bytes_to_field sha2
            (sha2 (VC.signMessageBytes hb ib issue_date expiry_date)),
          VC.hash_bytes_to_field sha2 ipb, frFrom nonce, rfl, rfl, rfl,
          mul_one _, mul_one _⟩
        [VC.hash_bytes_to_field sha2 ipb, frFrom nonce] rfl
    simp only [VC.ZK_VerifyVCProof, hex_to_bytes_bytes_to_hex pb hbytes, hdes,
      hdec, hver]

set_option maxRecDepth 16000 in
/-- Witness for C1 at the concrete capabilities: a concretely generated
proof verifies with accept (1) in both variants. -/
theorem roundtrip_generate_then_verify_accepts_witness :
    ACL.ZK_GenerateProof (trivGroth16 ACL.UserIDCircuit) shaZero
      (Except.ok (some ((), ()))) (some [])
      (some (bytes_to_hex (shaZero []))) 0 (some ()) 1 = (0, some []) ∧
    ACL.ZK_VerifyProof (trivGroth16 ACL.UserIDCircuit) shaZero
      (Except.ok (some ((), ()))) (some [])
      (some (bytes_to_hex (shaZero []))) 0 = 1 ∧
    VC.ZK_GenerateVCProof (trivGroth16 VC.VCCircuit) trivEd shaZero
      (Except.ok (some ((), ()))) (some []) (some []) 1 2
      (some (bytes_to_hex (List.replicate 64 0)))
      (some (bytes_to_hex (List.replicate 32 0))) 1 0 (some ()) 1 =
      (0, some []) ∧
    VC.ZK_VerifyVCProof (trivGroth16 VC.VCCircuit) shaZero
      (Except.ok (some ((), ()))) (some [])
      (some (bytes_to_hex (List.replicate 32 0))) 5 0 = 1 :=
  ⟨by decide,
   roundtrip_generate_then_verify_accepts.1 (trivGroth16 ACL.UserIDCircuit)
     shaZero false () () [] (bytes_to_hex (shaZero [])) [] 0 1 rfl
     (fun _ _ _ _ _ _ _ _ _ _ => rfl)
     (by intro pf bs h; cases h; exact ⟨rfl, by simp⟩) rfl (by decide),
   by decide,
   roundtrip_generate_then_verify_accepts.2 (trivGroth16 VC.VCCircuit) trivEd
     shaZero false () () [] [] (bytes_to_hex (List.replicate 64 0))
     (bytes_to_hex (List.replicate 32 0)) [] 1 2 1 5 0 1 rfl
     (fun _ _ _ _ _ _ _ _ _ _ => rfl)
     (by intro pf bs h; cases h; exact ⟨rfl, by simp⟩) (by decide)
     (by decide) (by decide) (by decide)⟩

/-- C3 counterexample: the claim asserts that the credential model's
`verify_signature` (over its `message_hash`) digests exactly holderId,
issuer, issueDate and expiryDate, excluding claims.  In the code
`VerifiableCredential::message_hash` folds the claim pairs into the
digest, so for a concrete credential with one claim pair the byte
sequence it digests differs from the byte sequence digested by
`ZK_SignVC` and `ZK_VerifyVCSignature` on the same holder, issuer and
dates. -/
theorem signature_message_hash_input_set_counterexample :
    VC.VerifiableCredential.messageBytes
      ⟨[104], [105], 1, 2, [([107], [118])], List.replicate 64 0⟩ ≠
    VC.signMessageBytes [104] [105] 1 2 := by decide

/-- C3 (amended): `ZK_SignVC` and `ZK_VerifyVCSignature` digest, in fixed
order, exactly holderId bytes, issuer bytes, issueDate as 8 little-endian
bytes and expiryDate as 8 little-endian bytes, excluding claims, over the
same input set — so, assuming the Ed25519 capability accepts its own
signatures, a signature produced by `ZK_SignVC` verifies through
`ZK_VerifyVCSignature` for the unaltered fields.
`VerifiableCredential::message_hash`, used by `verify_signature`,
additionally folds the claim pairs in after the dates, and agrees with
the signature-message hash exactly when the claims list is empty. -/
theorem signature_message_hash_amended
    (ed : Ed25519Cap) (sha2 : Bytes → Bytes) (hb ib sk sighex : Bytes)
    (issue_date expiry_date size : Nat) (vc : VC.VerifiableCredential)
    (hsk : sk.length = 32) (hskb : ∀ b ∈ sk, b < 256)
    (hsiglen : ∀ m, (ed.sign sk m).length = 64)
    (hsigb : ∀ m, ∀ b ∈ ed.sign sk m, b < 256)
    (hpklen : (ed.pubkey sk).length = 32)
    (hpkb : ∀ b ∈ ed.pubkey sk, b < 256)
    (hpkvalid : ed.pkValid (ed.pubkey sk) = true)
    (hedcorrect : ∀ m, ed.verify (ed.pubkey sk) m (ed.sign sk m) = true)
    (hsign : VC.ZK_SignVC ed sha2 (some hb) (some ib) issue_date expiry_date
      (some (bytes_to_hex sk)) (some ()) size = (0, some sighex)) :
    VC.signMessageBytes hb ib issue_date expiry_date =
      hb ++ ib ++ u64ToLeBytes issue_date ++ u64ToLeBytes expiry_date ∧
    VC.ZK_VerifyVCSignature ed sha2 (some hb) (some ib) issue_date
      expiry_date (some sighex) (some (bytes_to_hex (ed.pubkey sk))) = 1 ∧
    (vc.claims = [] → vc.message_hash sha2 =
      sha2 (VC.signMessageBytes vc.holder_id vc.issuer vc.issue_date
        vc.expiry_date)) := by
  refine ⟨rfl, ?_, ?_⟩
  · simp only [VC.ZK_SignVC, hex_to_bytes_bytes_to_hex sk hskb] at hsign
    rw [if_neg (by simp [hsk])] at hsign
    split at hsign
    · exact absurd hsign (by simp)
    · simp only [Prod.mk.injEq, Option.some.injEq, true_and] at hsign
      subst hsign
      simp only [VC.ZK_VerifyVCSignature,
        hex_to_bytes_bytes_to_hex _ (hsigb _),
        hex_to_bytes_bytes_to_hex _ hpkb]
      rw [if_neg (by simp [hsiglen, hpklen]), if_neg (by simp [hpkvalid]),
        if_pos (hedcorrect _)]
  · intro hclaims
    simp [VC.VerifiableCredential.message_hash,
      VC.VerifiableCredential.messageBytes, VC.signMessageBytes, hclaims,
      VC.claimsBytes]

set_option maxRecDepth 16000 in
/-- Witness for the amended C3 at the concrete capabilities: a concrete
sign-then-verify round trip succeeds, and a claim-free credential's
`message_hash` coincides with the signature-message hash. -/
theorem signature_message_hash_amended_witness :
    VC.ZK_SignVC trivEd shaZero (some []) (some []) 1 2
      (some (bytes_to_hex (List.replicate 32 0))) (some ()) 129 =
      (0, some (bytes_to_hex (List.replicate 64 0))) ∧
    VC.signMessageBytes [] [] 1 2 =
      [] ++ [] ++ u64ToLeBytes 1 ++ u64ToLeBytes 2 ∧
    VC.ZK_VerifyVCSignature trivEd shaZero (some []) (some []) 1 2
      (some (bytes_to_hex (List.replicate 64 0)))
      (some (bytes_to_hex (trivEd.pubkey (List.replicate 32 0)))) = 1 ∧
    VC.VerifiableCredential.message_hash shaZero ⟨[], [], 1, 2, [], []⟩ =
      shaZero (VC.signMessageBytes [] [] 1 2) :=
  have h := signature_message_hash_amended trivEd shaZero [] []
    (List.replicate 32 0) (bytes_to_hex (List.replicate 64 0)) 1 2 129
    ⟨[], [], 1, 2, [], []⟩ (by decide) (by decide) (fun _ => rfl)
    (fun _ b hmem => by rw [List.eq_of_mem_replicate hmem]; decide)
    (by decide) (by decide) rfl (fun _ => rfl) (by decide)
  ⟨by decide, h.1, h.2.1, h.2.2 rfl⟩

end Zkid
